import Mathlib

/-!
Shallow embedding of squery-lite (`src/squery_lite/squery.py`), the thin
wrapper around Python's `sqlite3` module: connection lifecycle, row access,
query conversion, and the `Database.transaction` scope.

Modelling conventions:
* Python values that matter to the claims are `PyVal` (string / integer /
  `None`); machine-level details of sqlite are out of scope, the engine is
  modelled by the behaviour the spec assumes of it (manual transactions,
  close-then-fail handles, WAL pragma).
* Error kinds use the spec's taxonomy (section 7): `useAfterCloseError` is
  sqlite3's `ProgrammingError` on a closed handle, `invalidQueryError` is the
  `AssertionError` raised by `convert_query`'s textuality assert,
  `indexError` is the `IndexError` that `sqlite3.Row` raises for a missing
  key, `fileNotFoundError` is `os.remove` on a missing path.
* The filesystem is inode-based: `os.remove` unlinks a path but the inode
  survives while open handles reference it (POSIX unlink), which is what
  decides the `Database.recreate` claim.
-/

/-- Python values reaching the wrapper's API. -/
inductive PyVal where
  | str (s : String)
  | int (n : Int)
  | pynone
  deriving DecidableEq, Repr

/-- Error kinds, named after the spec's error taxonomy; each comment gives
the concrete Python exception observed in the source. -/
inductive SqErr where
  /-- `AssertionError('Expected qry to be string')` in `convert_query`. -/
  | invalidQueryError
  /-- `sqlite3.ProgrammingError` on any operation over a closed handle. -/
  | useAfterCloseError
  /-- `sqlite3.connect` failing to open the path. -/
  | connectionError
  /-- `os.remove` on a path that is absent (or cannot be removed). -/
  | fileNotFoundError
  /-- `IndexError`, raised by `sqlite3.Row` lookup misses. -/
  | indexError
  deriving DecidableEq, Repr

/-! ## Filesystem

Paths link to inodes; an inode's content is the list of committed
statements. Removing a path drops the link only: an open handle still
reaches the old inode. `locked` lists paths the OS refuses to open. -/

structure FS where
  nextInode : Nat
  links : List (String × Nat)
  inodes : List (Nat × List String)
  locked : List String
  deriving DecidableEq, Repr

/-- `os.remove(path)`: unlink the path, raising when it is absent.  The
inode stays in `inodes` (open handles still reference it). -/
def os_remove (fs : FS) (p : String) : Except SqErr FS :=
  match fs.links.lookup p with
  | none => .error .fileNotFoundError
  | some _ => .ok { fs with links := fs.links.filter (fun l => l.1 != p) }

/-! ## sqlite3 engine handle

`EngineConn` models the `sqlite3.Connection` object held in
`Connection._conn`: which inode it is bound to, its isolation level
(`none` = manual transactions), its row factory, journal mode, registered
user functions/aggregates, uncommitted statements, and whether the handle
has been closed. -/

structure EngineConn where
  inode : Nat
  /-- `isolation_level`; sqlite3's default is `some ""`, `none` is manual. -/
  isolation_level : Option String
  /-- whether `row_factory` has been set to the squery `Row` subclass. -/
  rowFactoryIsRow : Bool
  /-- journal mode; sqlite's default is `"delete"`, the WAL pragma sets `"wal"`. -/
  journal_mode : String
  registered_funcs : List (String × Nat)
  registered_aggrs : List (String × Nat)
  /-- statements executed but not yet committed to the inode. -/
  pending : List String
  closed : Bool
  deriving DecidableEq, Repr

/-- A freshly opened sqlite3 handle on inode `i`. -/
def freshEngineConn (i : Nat) : EngineConn :=
  { inode := i, isolation_level := some "", rowFactoryIsRow := false,
    journal_mode := "delete", registered_funcs := [], registered_aggrs := [],
    pending := [], closed := false }

/-- `sqlite3.connect(path, detect_types=sqlite3.PARSE_DECLTYPES)`: open the
file at `path`, creating it when absent; `':memory:'` always gets a fresh
private database; fails when the OS refuses the path. -/
def sqlite3_connect (fs : FS) (p : String) : Except SqErr (EngineConn × FS) :=
  if p ∈ fs.locked then .error .connectionError
  else if p = ":memory:" then
    .ok (freshEngineConn fs.nextInode,
         { fs with nextInode := fs.nextInode + 1,
                   inodes := (fs.nextInode, []) :: fs.inodes })
  else
    match fs.links.lookup p with
    | some i => .ok (freshEngineConn i, fs)
    | none =>
        .ok (freshEngineConn fs.nextInode,
             { fs with nextInode := fs.nextInode + 1,
                       links := (p, fs.nextInode) :: fs.links,
                       inodes := (fs.nextInode, []) :: fs.inodes })

/-- `sqlite3.Connection.commit()`: flush pending statements into the bound
inode; on a closed handle it raises `ProgrammingError`. -/
def FS.writeInode (fs : FS) (i : Nat) (stmts : List String) : FS :=
  { fs with inodes := fs.inodes.map (fun q => if q.1 = i then (q.1, q.2 ++ stmts) else q) }

def EngineConn.engineCommit (e : EngineConn) (fs : FS) :
    Except SqErr (EngineConn × FS) :=
  if e.closed then .error .useAfterCloseError
  else .ok ({ e with pending := [] }, fs.writeInode e.inode e.pending)

/-- `sqlite3.Connection.rollback()`: discard pending statements; raises on a
closed handle. -/
def EngineConn.engineRollback (e : EngineConn) (fs : FS) :
    Except SqErr (EngineConn × FS) :=
  if e.closed then .error .useAfterCloseError
  else .ok ({ e with pending := [] }, fs)

/-- `sqlite3.Connection.cursor()`: raises on a closed handle, otherwise a
no-op on the connection state. -/
def EngineConn.engineCursor (e : EngineConn) (fs : FS) :
    Except SqErr (EngineConn × FS) :=
  if e.closed then .error .useAfterCloseError
  else .ok (e, fs)

/-- Executing one statement on a cursor of the handle: raises on a closed
handle; the WAL pragma switches the journal mode, any other statement is
appended to the pending list. -/
def EngineConn.engineExecute (e : EngineConn) (sql : String) (fs : FS) :
    Except SqErr (EngineConn × FS) :=
  if e.closed then .error .useAfterCloseError
  else if sql = "PRAGMA journal_mode=WAL;" then
    .ok ({ e with journal_mode := "wal" }, fs)
  else .ok ({ e with pending := e.pending ++ [sql] }, fs)

/-- `sqlite3.Connection.close()`: closing is idempotent at the engine level;
it does NOT commit (which is why squery's `Connection.close` commits first). -/
def EngineConn.engineClose (e : EngineConn) : EngineConn :=
  { e with closed := true }

/-! ## Row (squery.py lines 72-85)

`Row` subclasses `sqlite3.Row`: an ordered sequence of (column name, value)
pairs.  Name lookup is modelled as exact string match (the spec declares
column names case-sensitive); a miss raises `IndexError`, which is exactly
what `Row.get` catches. -/

structure Row where
  cols : List (String × PyVal)
  deriving DecidableEq, Repr

/-- `sqlite3.Row.keys()`: the column names in positional order. -/
def Row.keys (r : Row) : List String := r.cols.map Prod.fst

/-- Name-based subscript `row[name]` of `sqlite3.Row`: the value of the
first column with that name; `IndexError` when no column matches. -/
def Row.getName (r : Row) (k : String) : Except SqErr PyVal :=
  match r.cols.find? (fun p => p.1 == k) with
  | some p => .ok p.2
  | none => .error .indexError

/-- Positional subscript `row[i]` of `sqlite3.Row`. -/
def Row.getIdx (r : Row) (i : Nat) : Except SqErr PyVal :=
  match r.cols.get? i with
  | some p => .ok p.2
  | none => .error .indexError

/-- `Row.__getattr__` (line 74): `return self[key]`. -/
def Row.getattr (r : Row) (k : String) : Except SqErr PyVal := r.getName k

/-- `Row.get(key, default)` (lines 77-82): `key = str(key)` is the identity
on strings; `self[key]` is tried and `IndexError` — the only error
`Row.getName` can produce — yields the default. -/
def Row.get (r : Row) (k : String) (d : PyVal) : PyVal :=
  match r.getName k with
  | .ok v => v
  | .error _ => d

/-- `Row.__contains__` (lines 84-85): `key in self.keys()`. -/
def Row.containsKey (r : Row) (k : String) : Bool := r.keys.contains k

/-! ## Connection (squery.py lines 88-164) -/

/-- A Python callable passed in `funcs`: either a plain function (has
`__name__`; `getargspec(fn).args` counts its parameters) or a callable
object (name taken from its class, lowercased; `getargspec(fn.__call__)`
counts `self` too, so one is subtracted). -/
inductive PyCallable where
  | function (name : String) (argc : Nat)
  | callableObj (clsName : String) (callArgc : Nat)
  deriving DecidableEq, Repr

/-- `Connection.inspect_fn` (lines 133-145): the (name, nargs) pair passed
to `sqlite3.create_function` (the callable itself is the third component
and is not modelled). -/
def Connection.inspect_fn : PyCallable → String × Nat
  | .function n a => (n, a)
  | .callableObj n a => (n.toLower, a - 1)

/-- An aggregate class: its name and the parameter count of its `step`
method (including `self`). -/
structure PyAggregate where
  clsName : String
  stepArgc : Nat
  deriving DecidableEq, Repr

/-- `Connection.inspect_aggr` (lines 147-151). -/
def Connection.inspect_aggr (c : PyAggregate) : String × Nat :=
  (c.clsName.toLower, c.stepArgc - 1)

/-- The squery `Connection` wrapper: remembered constructor arguments plus
the wrapped `sqlite3` handle `_conn`. -/
structure Connection where
  path : String
  funcs : List PyCallable
  aggregates : List PyAggregate
  conn : EngineConn
  deriving DecidableEq, Repr

/-- `Connection.connect` (lines 96-114): `sqlite3.connect(self.path, ...)`,
set `row_factory = Row`, set `isolation_level = None` (manual transaction
handling), register every func and aggregate, then execute
`PRAGMA journal_mode=WAL;` on a cursor. -/
def Connection.connectEngine (path : String) (funcs : List PyCallable)
    (aggregates : List PyAggregate) (fs : FS) : Except SqErr (EngineConn × FS) :=
  match sqlite3_connect fs path with
  | .error err => .error err
  | .ok (e0, fs1) =>
      EngineConn.engineExecute
        { e0 with rowFactoryIsRow := true,
                  isolation_level := none,
                  registered_funcs := funcs.map Connection.inspect_fn,
                  registered_aggrs := aggregates.map Connection.inspect_aggr }
        "PRAGMA journal_mode=WAL;" fs1

/-- The method form of `Connection.connect`: rebuilds `self._conn` from the
stored `path`, `funcs` and `aggregates`. -/
def Connection.connect (c : Connection) (fs : FS) : Except SqErr (Connection × FS) :=
  match Connection.connectEngine c.path c.funcs c.aggregates fs with
  | .error err => .error err
  | .ok (e, fs1) => .ok ({ c with conn := e }, fs1)

/-- `Connection.__init__` (lines 90-94): store `path`, `funcs`,
`aggregates`, then `self.connect()`. -/
def Connection.init (path : String) (funcs : List PyCallable)
    (aggregates : List PyAggregate) (fs : FS) : Except SqErr (Connection × FS) :=
  match Connection.connectEngine path funcs aggregates fs with
  | .error err => .error err
  | .ok (e, fs1) =>
      .ok ({ path := path, funcs := funcs, aggregates := aggregates, conn := e }, fs1)

/-- `Connection.new` (lines 126-131): `self.__class__(self.path)` — the
constructor's `funcs` and `aggregates` default to `[]`. -/
def Connection.new (c : Connection) (fs : FS) : Except SqErr (Connection × FS) :=
  Connection.init c.path [] [] fs

/-- `Connection.close` (lines 122-124): `self._conn.commit()` then
`self._conn.close()`. -/
def Connection.close (c : Connection) (fs : FS) : Except SqErr (Connection × FS) :=
  match c.conn.engineCommit fs with
  | .error err => .error err
  | .ok (e1, fs1) => .ok ({ c with conn := e1.engineClose }, fs1)

/-- The operations a caller can invoke on a `Connection` after it is
handed out; all but `closeOp` delegate to the underlying sqlite3 handle
through `Connection.__getattr__` (lines 153-155). -/
inductive ConnOp where
  | commitOp
  | rollbackOp
  | cursorOp
  | executeOp (sql : String)
  | closeOp
  deriving DecidableEq, Repr

/-- Dispatch one `ConnOp` against a `Connection`. -/
def Connection.runOp (op : ConnOp) (c : Connection) (fs : FS) :
    Except SqErr (Connection × FS) :=
  match op with
  | .commitOp =>
      match c.conn.engineCommit fs with
      | .error err => .error err
      | .ok (e, fs1) => .ok ({ c with conn := e }, fs1)
  | .rollbackOp =>
      match c.conn.engineRollback fs with
      | .error err => .error err
      | .ok (e, fs1) => .ok ({ c with conn := e }, fs1)
  | .cursorOp =>
      match c.conn.engineCursor fs with
      | .error err => .error err
      | .ok (e, fs1) => .ok ({ c with conn := e }, fs1)
  | .executeOp sql =>
      match c.conn.engineExecute sql fs with
      | .error err => .error err
      | .ok (e, fs1) => .ok ({ c with conn := e }, fs1)
  | .closeOp => Connection.close c fs

/-! ## convert_query and Cursor (squery.py lines 55-69 and 167-207) -/

/-- A query argument: either a value passed through unchanged (no
`serialize` attribute) or an SQLExpression-style object whose `serialize()`
returns some value. -/
inductive QryArg where
  | raw (v : PyVal)
  | expr (serialized : PyVal)
  deriving DecidableEq, Repr

/-- The resolution step of `convert_query` (lines 63-64): when the argument
has a `serialize` attribute the result of calling it replaces the argument. -/
def resolve_qry : QryArg → PyVal
  | .raw v => v
  | .expr s => s

/-- Modelled from the spec: `basestring` comes from the repository module
`squery_lite/utils.py`, which is not under `src/`; the spec says the
resolved query value must be textual ("asserts the resolved value is
textual"), so `basestring` membership is modelled as being a string value. -/
def isBasestring : PyVal → Bool
  | .str _ => true
  | _ => false

/-- `convert_query` (lines 55-69): resolve `serialize()`, then
`assert isinstance(qry, basestring)` — a failing assert raises (the spec's
`InvalidQueryError`); on success the wrapped function runs on the resolved
SQL text. -/
def convert_query {α : Type} (fn : String → α) (q : QryArg) : Except SqErr α :=
  match resolve_qry q with
  | .str s => .ok (fn s)
  | _ => .error .invalidQueryError

/-- The slice of `Cursor` state the conversion claims need: the statements
given to the underlying `sqlite3` cursor, in order. -/
structure CursorSt where
  executed : List String
  deriving DecidableEq, Repr

/-- `Cursor.query` (lines 184-196), wrapped by `convert_query`; parameter
binding is orthogonal to the claims and not modelled. -/
def Cursor.query (cur : CursorSt) (q : QryArg) : Except SqErr CursorSt :=
  convert_query (fun s => { cur with executed := cur.executed ++ [s] }) q

/-- `Cursor.execute` (lines 198-200), wrapped by `convert_query`. -/
def Cursor.execute (cur : CursorSt) (q : QryArg) : Except SqErr CursorSt :=
  convert_query (fun s => { cur with executed := cur.executed ++ [s] }) q

/-- `Cursor.executemany` (lines 202-204), wrapped by `convert_query`. -/
def Cursor.executemany (cur : CursorSt) (q : QryArg) : Except SqErr CursorSt :=
  convert_query (fun s => { cur with executed := cur.executed ++ [s] }) q

/-! ## Database lifecycle (squery.py lines 210-329) -/

/-- The `Database` façade: its primary `Connection` and the debug flag. -/
structure Database where
  conn : Connection
  debug : Bool
  deriving DecidableEq, Repr

/-- `Database.connect` (lines 316-318): a classmethod returning
`Connection(database)` — `funcs` and `aggregates` default to `[]`. -/
def Database.connect (path : String) (fs : FS) : Except SqErr (Connection × FS) :=
  Connection.init path [] [] fs

/-- `Database.drop` (lines 324-326): `os.remove(path)`. -/
def Database.drop (path : String) (fs : FS) : Except SqErr FS :=
  os_remove fs path

/-- `Database.recreate` (lines 320-322): `self.drop(path)` then
`self.connect(path)`.  NOTE (faithful to the source): the `Connection`
returned by the classmethod `connect` is discarded and `self.conn` is never
rebound, so the `Database` value itself is unchanged. -/
def Database.recreate (db : Database) (path : String) (fs : FS) :
    Except SqErr (Database × FS) :=
  match Database.drop path fs with
  | .error err => .error err
  | .ok fs1 =>
      match Database.connect path fs1 with
      | .error err => .error err
      | .ok (_spawned, fs2) => .ok (db, fs2)

/-- `Database.reconnect` (lines 287-288): `self.conn.connect()` rebuilds the
primary connection's handle in place. -/
def Database.reconnect (db : Database) (fs : FS) : Except SqErr (Database × FS) :=
  match db.conn.connect fs with
  | .error err => .error err
  | .ok (c, fs1) => .ok ({ db with conn := c }, fs1)

/-! ## Database.transaction (squery.py lines 294-314)

The transaction scope is modelled by the sequence of engine-visible events
it produces together with the error (if any) that escapes to the caller.
The caller's scoped block is abstract: it contributes the statements it
managed to execute on the transaction's cursor and whether it raised.  The
source is a `contextlib.contextmanager` generator:

* choose the connection — `self.conn.new()` when `new_connection` else the
  primary (lines 296-299);
* `cursor.execute('BEGIN EXCLUSIVE;')` or `cursor.execute('BEGIN;')`
  (lines 300-303);
* `try: yield cursor; cursor.conn.commit()` — a block that raises skips the
  commit; a commit call that raises is caught like a block failure;
* `except Exception: cursor.conn.rollback(); if silent: return; raise`
  (lines 307-311);
* `finally: if new_connection: cursor.conn.close()` (lines 312-314). -/

/-- Which connection a transaction event happened on. -/
inductive ConnChoice where
  | primary
  | spawned
  deriving DecidableEq, Repr

/-- Engine-visible events of a transaction scope.  A `commit`/`rollback`
event records the call being made; whether the commit call raised is the
`commitRaises` argument of `Database.transaction`. -/
inductive TEvent where
  | exec (c : ConnChoice) (sql : String)
  | commit (c : ConnChoice)
  | rollback (c : ConnChoice)
  | close (c : ConnChoice)
  deriving DecidableEq, Repr

/-- Behaviour of the caller's scoped block: the statements it executed on
the transaction's cursor before exiting (the prefix it reached), and
`some e` when it raised the error `e`.  Errors are identified by a number
so that "the same error propagates" is expressible. -/
structure BlockRun where
  stmts : List String
  raised : Option Nat
  deriving DecidableEq, Repr

/-- Line 296-299: the connection the scope works through. -/
def chosenConn (new_connection : Bool) : ConnChoice :=
  if new_connection then .spawned else .primary

/-- `Database.transaction(silent, new_connection, exclusive)`: the event
trace of one run of the scope and the error that propagates to the caller
(`none` = the scope exits normally). -/
def Database.transaction (silent new_connection exclusive : Bool)
    (block : BlockRun) (commitRaises : Option Nat) : List TEvent × Option Nat :=
  let c := chosenConn new_connection
  let beginSql := if exclusive then "BEGIN EXCLUSIVE;" else "BEGIN;"
  let entry := TEvent.exec c beginSql :: block.stmts.map (TEvent.exec c)
  let body : List TEvent × Option Nat :=
    match block.raised with
    | none =>
        match commitRaises with
        | none => ([TEvent.commit c], none)
        | some e => ([TEvent.commit c, TEvent.rollback c],
                     if silent then none else some e)
    | some e => ([TEvent.rollback c], if silent then none else some e)
  (entry ++ body.1 ++ (if new_connection then [TEvent.close c] else []), body.2)

/-! ## Theorems about the transaction scope -/

/-- A sample block run that raises error 7 after one statement. -/
def blkRaise : BlockRun := { stmts := ["insert into foo values (1);"], raised := some 7 }

/-- A sample block run that completes normally after one statement. -/
def blkOk : BlockRun := { stmts := ["insert into foo values (1);"], raised := none }

/-- Claim C1: whenever the scoped block of `Database.transaction` raises an
error, the transaction is rolled back via the chosen Connection; with
`silent = true` the error is swallowed and the scope exits normally, with
`silent = false` the same error propagates to the caller. -/
theorem c1_block_error_rollback_then_silence_or_propagation
    (silent new_connection exclusive : Bool) (block : BlockRun)
    (commitRaises : Option Nat) (e : Nat) (h : block.raised = some e) :
    TEvent.rollback (chosenConn new_connection)
        ∈ (Database.transaction silent new_connection exclusive block commitRaises).1
    ∧ (silent = true →
        (Database.transaction silent new_connection exclusive block commitRaises).2 = none)
    ∧ (silent = false →
        (Database.transaction silent new_connection exclusive block commitRaises).2 = some e) := by
  unfold Database.transaction
  rw [h]
  cases silent <;> cases new_connection <;> simp [chosenConn]

/-- Witness for C1 at a concrete run: non-silent, primary connection,
plain `BEGIN`, block raising error 7. -/
theorem c1_witness :
    blkRaise.raised = some 7
    ∧ (TEvent.rollback (chosenConn false)
          ∈ (Database.transaction false false false blkRaise none).1
      ∧ ((false : Bool) = true →
          (Database.transaction false false false blkRaise none).2 = none)
      ∧ ((false : Bool) = false →
          (Database.transaction false false false blkRaise none).2 = some 7)) :=
  ⟨rfl, c1_block_error_rollback_then_silence_or_propagation
          false false false blkRaise none 7 rfl⟩

/-- Claim C2: a `new_connection = true` transaction closes the spawned
sibling Connection on every exit path (any block behaviour, any commit
behaviour, silent or not), and never closes the primary Connection. -/
theorem c2_spawned_connection_always_closed
    (silent exclusive : Bool) (block : BlockRun) (commitRaises : Option Nat) :
    TEvent.close ConnChoice.spawned
        ∈ (Database.transaction silent true exclusive block commitRaises).1
    ∧ TEvent.close ConnChoice.primary
        ∉ (Database.transaction silent true exclusive block commitRaises).1 := by
  unfold Database.transaction
  cases h : block.raised <;> cases commitRaises <;> cases silent <;> simp [chosenConn]

/-- Claim C3: the first statement executed on the transaction's cursor is
`BEGIN EXCLUSIVE;` when `exclusive` is true and `BEGIN;` otherwise, and a
block that completes normally with a non-raising commit call commits via
the chosen Connection, with the scope exiting normally. -/
theorem c3_begin_statement_then_commit_on_success
    (silent new_connection exclusive : Bool) (block : BlockRun)
    (commitRaises : Option Nat) :
    ((Database.transaction silent new_connection exclusive block commitRaises).1).head?
      = some (TEvent.exec (chosenConn new_connection)
              (if exclusive then "BEGIN EXCLUSIVE;" else "BEGIN;"))
    ∧ (block.raised = none → commitRaises = none →
        TEvent.commit (chosenConn new_connection)
            ∈ (Database.transaction silent new_connection exclusive block commitRaises).1
        ∧ (Database.transaction silent new_connection exclusive block commitRaises).2
            = none) := by
  constructor
  · unfold Database.transaction
    cases exclusive <;> simp
  · intro hb hc
    unfold Database.transaction
    rw [hb, hc]
    simp

/-- Witness for C3 at a concrete run: exclusive transaction, successful
block and commit. -/
theorem c3_witness :
    blkOk.raised = none
    ∧ (((Database.transaction false false true blkOk none).1).head?
          = some (TEvent.exec (chosenConn false)
                  (if true then "BEGIN EXCLUSIVE;" else "BEGIN;"))
      ∧ (TEvent.commit (chosenConn false)
            ∈ (Database.transaction false false true blkOk none).1
        ∧ (Database.transaction false false true blkOk none).2 = none)) :=
  ⟨rfl,
   (c3_begin_statement_then_commit_on_success false false true blkOk none).1,
   (c3_begin_statement_then_commit_on_success false false true blkOk none).2 rfl rfl⟩

/-- Claim C10: when the block completes normally but the commit call itself
raises, the scope behaves like a block failure: it rolls back via the
chosen Connection and the `silent` flag decides whether the commit error is
swallowed or propagated. -/
theorem c10_commit_error_treated_as_block_failure
    (silent new_connection exclusive : Bool) (block : BlockRun) (e : Nat)
    (hb : block.raised = none) :
    TEvent.rollback (chosenConn new_connection)
        ∈ (Database.transaction silent new_connection exclusive block (some e)).1
    ∧ (silent = true →
        (Database.transaction silent new_connection exclusive block (some e)).2 = none)
    ∧ (silent = false →
        (Database.transaction silent new_connection exclusive block (some e)).2 = some e) := by
  unfold Database.transaction
  rw [hb]
  cases silent <;> cases new_connection <;> simp [chosenConn]

/-- Witness for C10 at a concrete run: silent transaction whose commit call
raises error 9. -/
theorem c10_witness :
    blkOk.raised = none
    ∧ (TEvent.rollback (chosenConn true)
          ∈ (Database.transaction true true false blkOk (some 9)).1
      ∧ ((true : Bool) = true →
          (Database.transaction true true false blkOk (some 9)).2 = none)
      ∧ ((true : Bool) = false →
          (Database.transaction true true false blkOk (some 9)).2 = some 9)) :=
  ⟨rfl, c10_commit_error_treated_as_block_failure true true false blkOk 9 rfl⟩

/-! ## Theorems about convert_query / Cursor -/

/-- Claim C4: a query argument exposing `serialize()` is replaced by its
serialized text before execution, and whenever the resolved query value is
not textual the call fails with `InvalidQueryError`; `query`, `execute`
and `executemany` are wrapped the same way. -/
theorem c4_serialize_then_textual_or_invalid (cur : CursorSt) (q : QryArg) :
    (∀ s, q = QryArg.expr (PyVal.str s) →
        Cursor.query cur q = .ok { cur with executed := cur.executed ++ [s] })
    ∧ (isBasestring (resolve_qry q) = false →
        Cursor.query cur q = .error .invalidQueryError
      ∧ Cursor.execute cur q = .error .invalidQueryError
      ∧ Cursor.executemany cur q = .error .invalidQueryError) := by
  constructor
  · intro s hq
    subst hq
    simp [Cursor.query, convert_query, resolve_qry]
  · intro hnb
    cases q with
    | raw v =>
        cases v <;> simp_all [Cursor.query, Cursor.execute, Cursor.executemany,
          convert_query, resolve_qry, isBasestring]
    | expr v =>
        cases v <;> simp_all [Cursor.query, Cursor.execute, Cursor.executemany,
          convert_query, resolve_qry, isBasestring]

/-- Witness for C4: a serializable expression is executed as its serialized
text, and a non-textual (integer) query argument is rejected. -/
theorem c4_witness :
    Cursor.query { executed := [] } (QryArg.expr (PyVal.str "SELECT 1;"))
        = .ok { executed := ["SELECT 1;"] }
    ∧ Cursor.query { executed := [] } (QryArg.raw (PyVal.int 3))
        = .error .invalidQueryError :=
  ⟨(c4_serialize_then_textual_or_invalid { executed := [] }
      (QryArg.expr (PyVal.str "SELECT 1;"))).1 "SELECT 1;" rfl,
   ((c4_serialize_then_textual_or_invalid { executed := [] }
      (QryArg.raw (PyVal.int 3))).2 rfl).1⟩

/-! ## Theorems about Row -/

/-- With distinct column names, the first column matching the name of the
`i`-th column is the `i`-th column itself. -/
theorem row_find_first (cols : List (String × PyVal))
    (hnd : (cols.map Prod.fst).Nodup) :
    ∀ i name v, cols.get? i = some (name, v) →
      cols.find? (fun p => p.1 == name) = some (name, v) := by
  induction cols with
  | nil => intro i name v h; simp at h
  | cons hd tl ih =>
      intro i name v h
      rw [List.map_cons, List.nodup_cons] at hnd
      match i with
      | 0 =>
          rw [List.get?_cons_zero] at h
          injection h with h
          subst h
          exact List.find?_cons_of_pos _ (by simp)
      | Nat.succ j =>
          rw [List.get?_cons_succ] at h
          have hmem : (name, v) ∈ tl := List.get?_mem h
          have hname : name ∈ tl.map Prod.fst := List.mem_map_of_mem Prod.fst hmem
          have hne : ¬((fun p => p.1 == name) hd = true) := by
            simp only [beq_iff_eq]
            intro hkeq
            exact hnd.1 (hkeq ▸ hname)
          rw [List.find?_cons_of_neg tl hne]
          exact ih hnd.2 j name v h

/-- Claim C7: for a fetched Row with distinct column names, name subscript,
attribute access, positional access at the column's index and `get(name)`
all agree; `get` of an absent name returns the default; and containment
holds exactly for the Row's column names. -/
theorem c7_row_access_laws (r : Row) (hnd : r.keys.Nodup) :
    (∀ i name v, r.cols.get? i = some (name, v) →
        r.getName name = .ok v ∧ r.getattr name = .ok v ∧ r.getIdx i = .ok v
        ∧ ∀ d, r.get name d = v)
    ∧ (∀ name d, name ∉ r.keys → r.get name d = d)
    ∧ (∀ name, r.containsKey name = true ↔ name ∈ r.keys) := by
  simp only [Row.keys] at hnd
  refine ⟨?_, ?_, ?_⟩
  · intro i name v h
    have hf := row_find_first r.cols hnd i name v h
    exact ⟨by simp [Row.getName, hf], by simp [Row.getattr, Row.getName, hf],
           by unfold Row.getIdx; rw [h], fun d => by simp [Row.get, Row.getName, hf]⟩
  · intro name d hab
    have hf : r.cols.find? (fun p => p.1 == name) = none := by
      apply List.find?_eq_none.mpr
      intro x hx hpx
      apply hab
      have hx1 : x.1 = name := by simpa using hpx
      simpa [Row.keys, hx1] using List.mem_map_of_mem Prod.fst hx
    simp [Row.get, Row.getName, hf]
  · intro name
    simp [Row.containsKey, Row.keys, List.contains, List.elem_iff]

/-- A one-column row, as in the spec's `bar=1` example. -/
def demoRow : Row := { cols := [("bar", PyVal.int 1)] }

/-- Witness for C7 on the spec's example row `bar=1`. -/
theorem c7_witness :
    demoRow.keys.Nodup
    ∧ demoRow.get "bar" PyVal.pynone = PyVal.int 1
    ∧ demoRow.get "missing" (PyVal.str "def") = PyVal.str "def" := by
  have hnd : demoRow.keys.Nodup := by simp [demoRow, Row.keys]
  have h := c7_row_access_laws demoRow hnd
  exact ⟨hnd, (h.1 0 "bar" (PyVal.int 1) rfl).2.2.2 PyVal.pynone,
         h.2.1 "missing" (PyVal.str "def") (by simp [demoRow, Row.keys])⟩

/-! ## Theorems about the Connection lifecycle -/

/-- Claim C5: `Connection.close` commits the pending work into the file and
then releases the handle, and afterwards every operation on the closed
`Connection` fails with `UseAfterCloseError`. -/
theorem c5_close_commits_releases_then_all_ops_fail
    (c c2 : Connection) (fs fs2 : FS)
    (hopen : c.conn.closed = false)
    (h : Connection.close c fs = .ok (c2, fs2)) :
    fs2 = fs.writeInode c.conn.inode c.conn.pending
    ∧ c2.conn.pending = []
    ∧ c2.conn.closed = true
    ∧ ∀ op fs3, Connection.runOp op c2 fs3 = .error .useAfterCloseError := by
  unfold Connection.close at h
  simp only [EngineConn.engineCommit, hopen] at h
  cases h
  refine ⟨rfl, rfl, rfl, ?_⟩
  intro op fs3
  cases op <;>
    simp [Connection.runOp, Connection.close, EngineConn.engineCommit,
      EngineConn.engineRollback, EngineConn.engineCursor,
      EngineConn.engineExecute, EngineConn.engineClose]

/-- The file and connection used by several concrete runs: one database
file `a.db` (inode 0) holding one committed statement, with an open
connection that has one uncommitted statement. -/
def demoFS : FS :=
  { nextInode := 1, links := [("a.db", 0)],
    inodes := [(0, ["create table foo (bar integer);"])], locked := [] }

def demoConn : Connection :=
  { path := "a.db", funcs := [], aggregates := [],
    conn := { inode := 0, isolation_level := none, rowFactoryIsRow := true,
              journal_mode := "wal", registered_funcs := [], registered_aggrs := [],
              pending := ["insert into foo values (1);"], closed := false } }

/-- `demoConn` after `close`: pending flushed, handle released. -/
def closedDemoConn : Connection :=
  { path := "a.db", funcs := [], aggregates := [],
    conn := { inode := 0, isolation_level := none, rowFactoryIsRow := true,
              journal_mode := "wal", registered_funcs := [], registered_aggrs := [],
              pending := [], closed := true } }

/-- `demoFS` after the close committed the pending insert. -/
def committedFS : FS :=
  { nextInode := 1, links := [("a.db", 0)],
    inodes := [(0, ["create table foo (bar integer);",
                    "insert into foo values (1);"])],
    locked := [] }

/-- Witness for C5 on the concrete connection `demoConn`. -/
theorem c5_witness :
    demoConn.conn.closed = false
    ∧ Connection.close demoConn demoFS = .ok (closedDemoConn, committedFS)
    ∧ (committedFS = demoFS.writeInode demoConn.conn.inode demoConn.conn.pending
      ∧ closedDemoConn.conn.pending = []
      ∧ closedDemoConn.conn.closed = true
      ∧ ∀ op fs3, Connection.runOp op closedDemoConn fs3
          = .error .useAfterCloseError) :=
  ⟨rfl, rfl,
   c5_close_commits_releases_then_all_ops_fail demoConn closedDemoConn
     demoFS committedFS rfl rfl⟩

/-- On success `sqlite3_connect` hands back an open handle. -/
theorem sqlite3_connect_open {fs : FS} {p : String} {e : EngineConn} {fs1 : FS}
    (h : sqlite3_connect fs p = .ok (e, fs1)) : e.closed = false := by
  unfold sqlite3_connect at h
  split at h
  · cases h
  · split at h
    · cases h; rfl
    · split at h
      · cases h; rfl
      · cases h; rfl

/-- What a successful `Connection.connect` leaves on the handle: manual
isolation, WAL journaling, and exactly the requested functions and
aggregates registered. -/
theorem connectEngine_result {path : String} {funcs : List PyCallable}
    {aggregates : List PyAggregate} {fs fs2 : FS} {e : EngineConn}
    (h : Connection.connectEngine path funcs aggregates fs = .ok (e, fs2)) :
    e.isolation_level = none ∧ e.journal_mode = "wal"
    ∧ e.registered_funcs = funcs.map Connection.inspect_fn
    ∧ e.registered_aggrs = aggregates.map Connection.inspect_aggr := by
  unfold Connection.connectEngine at h
  cases hc : sqlite3_connect fs path with
  | error err => rw [hc] at h; cases h
  | ok pr =>
      obtain ⟨e0, fs1⟩ := pr
      rw [hc] at h
      have hopen := sqlite3_connect_open hc
      simp only [EngineConn.engineExecute, hopen] at h
      cases h
      exact ⟨rfl, rfl, rfl, rfl⟩

/-- Claim C8: every successfully opened handle has manual isolation (no
implicit autocommit transactions) and WAL journaling, and the invariant
also holds after every successful `Database.reconnect`. -/
theorem c8_open_sets_manual_isolation_and_wal
    (path : String) (funcs : List PyCallable) (aggregates : List PyAggregate)
    (fs fs2 : FS) (e : EngineConn)
    (h : Connection.connectEngine path funcs aggregates fs = .ok (e, fs2)) :
    (e.isolation_level = none ∧ e.journal_mode = "wal")
    ∧ ∀ (db db2 : Database) (fs3 fs4 : FS),
        Database.reconnect db fs3 = .ok (db2, fs4) →
        db2.conn.conn.isolation_level = none
        ∧ db2.conn.conn.journal_mode = "wal" := by
  refine ⟨⟨(connectEngine_result h).1, (connectEngine_result h).2.1⟩, ?_⟩
  intro db db2 fs3 fs4 hr
  unfold Database.reconnect at hr
  cases hc : db.conn.connect fs3 with
  | error err => rw [hc] at hr; cases hr
  | ok pr =>
      obtain ⟨c, fs1⟩ := pr
      rw [hc] at hr
      cases hr
      unfold Connection.connect at hc
      cases hc2 : Connection.connectEngine db.conn.path db.conn.funcs
          db.conn.aggregates fs3 with
      | error err => rw [hc2] at hc; cases hc
      | ok pr2 =>
          obtain ⟨e2, fs5⟩ := pr2
          rw [hc2] at hc
          cases hc
          exact ⟨(connectEngine_result hc2).1, (connectEngine_result hc2).2.1⟩

/-- An empty filesystem. -/
def fs0 : FS := { nextInode := 0, links := [], inodes := [], locked := [] }

/-- The handle produced by opening `':memory:'` on `fs0`. -/
def walEngine : EngineConn :=
  { inode := 0, isolation_level := none, rowFactoryIsRow := true,
    journal_mode := "wal", registered_funcs := [], registered_aggrs := [],
    pending := [], closed := false }

/-- `fs0` after opening `':memory:'`. -/
def memFS : FS := { nextInode := 1, links := [], inodes := [(0, [])], locked := [] }

/-- Witness for C8 on a concrete successful in-memory open. -/
theorem c8_witness :
    Connection.connectEngine ":memory:" [] [] fs0 = .ok (walEngine, memFS)
    ∧ ((walEngine.isolation_level = none ∧ walEngine.journal_mode = "wal")
      ∧ ∀ (db db2 : Database) (fs3 fs4 : FS),
          Database.reconnect db fs3 = .ok (db2, fs4) →
          db2.conn.conn.isolation_level = none
          ∧ db2.conn.conn.journal_mode = "wal") :=
  ⟨rfl, c8_open_sets_manual_isolation_and_wal ":memory:" [] [] fs0 memFS walEngine rfl⟩

/-- Claim C9: `Connection.new` on a connection constructed with custom
functions or aggregates spawns a sibling to the same path but built with
empty `funcs` and `aggregates`, so nothing custom is registered on the
spawned handle. -/
theorem c9_spawned_connection_has_no_custom_functions
    (c c2 : Connection) (fs fs2 : FS)
    (hne : c.funcs ≠ [] ∨ c.aggregates ≠ [])
    (h : Connection.new c fs = .ok (c2, fs2)) :
    c2.path = c.path ∧ c2.funcs = [] ∧ c2.aggregates = []
    ∧ c2.conn.registered_funcs = [] ∧ c2.conn.registered_aggrs = [] := by
  unfold Connection.new Connection.init at h
  cases hc : Connection.connectEngine c.path [] [] fs with
  | error err => rw [hc] at h; cases h
  | ok pr =>
      obtain ⟨e, fs1⟩ := pr
      rw [hc] at h
      cases h
      have hr := connectEngine_result hc
      exact ⟨rfl, rfl, rfl, by simpa using hr.2.2.1, by simpa using hr.2.2.2⟩

/-- A connection built with one custom scalar function, `addtwo`. -/
def demoFuncConn : Connection :=
  { path := "a.db", funcs := [PyCallable.function "addtwo" 1], aggregates := [],
    conn := { inode := 0, isolation_level := none, rowFactoryIsRow := true,
              journal_mode := "wal", registered_funcs := [("addtwo", 1)],
              registered_aggrs := [], pending := [], closed := false } }

/-- The sibling that `demoFuncConn.new` spawns on `demoFS`. -/
def spawnedConn : Connection :=
  { path := "a.db", funcs := [], aggregates := [],
    conn := { inode := 0, isolation_level := none, rowFactoryIsRow := true,
              journal_mode := "wal", registered_funcs := [], registered_aggrs := [],
              pending := [], closed := false } }

/-- Witness for C9 on the concrete connection `demoFuncConn`. -/
theorem c9_witness :
    (demoFuncConn.funcs ≠ [] ∨ demoFuncConn.aggregates ≠ [])
    ∧ Connection.new demoFuncConn demoFS = .ok (spawnedConn, demoFS)
    ∧ (spawnedConn.path = demoFuncConn.path ∧ spawnedConn.funcs = []
      ∧ spawnedConn.aggregates = []
      ∧ spawnedConn.conn.registered_funcs = []
      ∧ spawnedConn.conn.registered_aggrs = []) :=
  ⟨Or.inl (by decide), rfl,
   c9_spawned_connection_has_no_custom_functions demoFuncConn spawnedConn
     demoFS demoFS (Or.inl (by decide)) rfl⟩

/-! ## Database.recreate (claim C6) -/

/-- The database façade over `demoConn`. -/
def demoDb : Database := { conn := demoConn, debug := false }

/-- The filesystem after `demoDb.recreate "a.db"` on `demoFS`: the old link
is gone, a fresh empty database file (inode 1) sits at the path, and the
removed inode 0 survives only through the still-open handle. -/
def recreatedFS : FS :=
  { nextInode := 2, links := [("a.db", 1)],
    inodes := [(1, []), (0, ["create table foo (bar integer);"])],
    locked := [] }

/-- Claim C6, evaluated at the failing input: `recreate` removes the file
and a fresh database file is created at the path, but the returned
`Database` is unchanged — its primary connection still references the
removed file's inode 0 rather than the fresh inode 1 now linked at the
path, so the Database does not operate on the freshly created database. -/
theorem c6_recreate_leaves_primary_connection_on_removed_inode :
    Database.recreate demoDb "a.db" demoFS = .ok (demoDb, recreatedFS)
    ∧ recreatedFS.links.lookup "a.db" = some 1
    ∧ recreatedFS.inodes.lookup 1 = some []
    ∧ demoDb.conn.conn.inode = 0
    ∧ recreatedFS.links.lookup "a.db" ≠ some demoDb.conn.conn.inode :=
  ⟨rfl, rfl, rfl, rfl, by decide⟩
